import Mathlib

/-!
Verification development for the static card generator in `src/build.js`
(repository `supremetech-ai/supremetech-cards`).

The rendering core of `build.js` is pure: every function below is a direct
shallow embedding of the corresponding JavaScript function, keeping the
source's names where Lean allows it.  JavaScript strings are modelled as
Lean `String`/`List Char`; absent (`undefined`/`null`) values as `Option`;
JavaScript truthiness on strings (`undefined`, `null` and `""` are falsy)
as the `truthy` predicate.  The few floating-point computations the source
performs (`(height||80)*0.35`, `opacity/100`) only produce decimal text in
CSS style strings; they are modelled by exact decimal arithmetic
(`divHundredStr`), which agrees with JavaScript number printing on the
integer ranges the program uses.  No claim below depends on those digits.
-/

namespace Cards

/-! ## JavaScript string/value primitives -/

/-- JavaScript truthiness of a possibly-absent string: `undefined`, `null`
and `""` are falsy, every other string is truthy. -/
def truthy : Option String → Bool
  | none => false
  | some s => !(s == "")

/-- JavaScript `a || b` on possibly-absent strings. -/
def orOpt (a b : Option String) : Option String :=
  if truthy a then a else b

/-- JavaScript `a || d` where the fallback `d` is a plain string. -/
def jsOrS (a : Option String) (d : String) : String :=
  match a with
  | none => d
  | some s => if s = "" then d else s

/-- JavaScript `a || d` where both operands are plain strings. -/
def jsOrStr (a d : String) : String :=
  if a = "" then d else a

/-- JavaScript template-literal interpolation of a possibly-absent string:
`undefined` prints as `"undefined"`. -/
def jsInterp : Option String → String
  | none => "undefined"
  | some s => s

/-- `concatMap` on lists of characters (used to state what the chained
`String#replace` calls of `escapeHtml` compute). -/
def cmap (f : Char → List Char) : List Char → List Char
  | [] => []
  | c :: rest => f c ++ cmap f rest

/-- Does `needle` occur as a contiguous substring of `hay`?
(JavaScript `String#includes`.) -/
def containsSub (needle : List Char) : List Char → Bool
  | [] => needle.isEmpty
  | c :: rest => needle.isPrefixOf (c :: rest) || containsSub needle rest

/-- `String`-level wrapper for `containsSub`. -/
def containsStr (needle hay : String) : Bool :=
  containsSub needle.data hay.data

/-- JavaScript `String#startsWith`. -/
def jsStartsWith (s p : String) : Bool :=
  p.data.isPrefixOf s.data

/-- JavaScript `String#endsWith`. -/
def jsEndsWith (s p : String) : Bool :=
  p.data.isSuffixOf s.data

/-- Leftmost, non-overlapping, global replacement of the pattern `p` by `r`
(JavaScript `String#replace` with a `g`-flagged literal pattern), with
explicit fuel so that the definition is structural and kernel-reducible.
With `fuel ≥` the length of the subject the fuel never runs out. -/
def replaceSubAux : Nat → List Char → List Char → List Char → List Char
  | 0, _, _, s => s
  | _ + 1, _, _, [] => []
  | fuel + 1, p, r, c :: rest =>
    if p ≠ [] ∧ p.isPrefixOf (c :: rest) then
      r ++ replaceSubAux fuel p r (rest.drop (p.length - 1))
    else
      c :: replaceSubAux fuel p r rest

/-- Global replacement of `p` by `r` in `s` (JavaScript `s.replace(/p/g, r)`
for a literal pattern `p`). -/
def replaceSub (p r s : List Char) : List Char :=
  replaceSubAux s.length p r s

/-- Replacement of the first occurrence only (JavaScript `String#replace`
with a plain string pattern, used by `getIcon`). -/
def replaceOnce (p r : List Char) : List Char → List Char
  | [] => if p = [] then r else []
  | c :: rest =>
    if p ≠ [] ∧ p.isPrefixOf (c :: rest) then
      r ++ (c :: rest).drop p.length
    else
      c :: replaceOnce p r rest

/-- Trim ASCII whitespace from both ends (JavaScript `String#trim`). -/
def trimChars (l : List Char) : List Char :=
  ((l.dropWhile Char.isWhitespace).reverse.dropWhile Char.isWhitespace).reverse

/-- `String`-level trim. -/
def jsTrim (s : String) : String :=
  ⟨trimChars s.data⟩

/-- JavaScript `String#toUpperCase` (ASCII range, which is all the source
feeds it). -/
def upperStr (s : String) : String :=
  ⟨s.data.map Char.toUpper⟩

/-- JavaScript `Array#join(" ")`. -/
def joinSp : List String → String
  | [] => ""
  | [x] => x
  | x :: xs => x ++ " " ++ joinSp xs

/-- Decimal rendering of `n / 100` (exact), matching JavaScript number
printing for the 0–100 opacity range and the avatar font-size products the
source produces. -/
def divHundredStr (n : Int) : String :=
  let q : Int := n / 100
  let r : Int := n % 100
  if r = 0 then toString q
  else if r % 10 = 0 then toString q ++ "." ++ toString (r / 10)
  else if r < 10 then toString q ++ ".0" ++ toString r
  else toString q ++ "." ++ toString r

/-- Accumulate decimal digits (`parseInt`, radix 10). -/
def decDigitsAux : List Char → Nat → Nat
  | [], acc => acc
  | c :: rest, acc =>
    if c.isDigit then decDigitsAux rest (acc * 10 + (c.toNat - 48)) else acc

/-- Accumulate hexadecimal digits (`parseInt` after a `0x` prefix). -/
def hexDigitsAux : List Char → Nat → Nat
  | [], acc => acc
  | c :: rest, acc =>
    if c.isDigit then hexDigitsAux rest (acc * 16 + (c.toNat - 48))
    else if 'a' ≤ c ∧ c ≤ 'f' then hexDigitsAux rest (acc * 16 + (c.toNat - 87))
    else if 'A' ≤ c ∧ c ≤ 'F' then hexDigitsAux rest (acc * 16 + (c.toNat - 55))
    else acc

/-- Is this a hexadecimal digit? -/
def isHexDigitChar (c : Char) : Bool :=
  c.isDigit || ('a' ≤ c ∧ c ≤ 'f') || ('A' ≤ c ∧ c ≤ 'F')

/-- JavaScript `parseInt(s)` (no radix argument): skip leading whitespace,
optional sign, `0x`/`0X` hexadecimal prefix, then the longest digit run;
`none` models `NaN`. -/
def jsParseInt (s : String) : Option Int :=
  let l := s.data.dropWhile Char.isWhitespace
  let (sign, l) : Int × List Char :=
    match l with
    | '-' :: rest => (-1, rest)
    | '+' :: rest => (1, rest)
    | l => (1, l)
  match l with
  | '0' :: x :: rest =>
    if x = 'x' ∨ x = 'X' then
      if (rest.takeWhile isHexDigitChar).isEmpty then none
      else some (sign * hexDigitsAux (rest.takeWhile isHexDigitChar) 0)
    else some (sign * decDigitsAux (('0' :: x :: rest).takeWhile Char.isDigit) 0)
  | l =>
    if (l.takeWhile Char.isDigit).isEmpty then none
    else some (sign * decDigitsAux (l.takeWhile Char.isDigit) 0)

/-! ## Data model (the record shapes `build.js` reads from the fetched JSON) -/

/-- `profile` sub-record: person identity. -/
structure Profile where
  first_name : Option String := none
  last_name : Option String := none
  job_title : Option String := none
  email : Option String := none
  work_email : Option String := none
  phone : Option String := none
  avatar_url : Option String := none
deriving DecidableEq

/-- `business` sub-record: organization identity. -/
structure Business where
  name : Option String := none
  phone : Option String := none
  email : Option String := none
  website : Option String := none
  logo_url : Option String := none
  logo_full_url : Option String := none
  logo_icon_url : Option String := none
  primary_color : Option String := none
deriving DecidableEq

/-- `socialProfile` sub-record: social network URLs. -/
structure SocialProfile where
  linkedin_url : Option String := none
  twitter_url : Option String := none
  facebook_url : Option String := none
  instagram_url : Option String := none
  youtube_url : Option String := none
  github_url : Option String := none
deriving DecidableEq

/-- `card.custom_fields` map (the generator reads only
`profile_photo_url` from it). -/
structure CustomFields where
  profile_photo_url : Option String := none
deriving DecidableEq

/-- `card` sub-record: per-instance overrides and identifiers. -/
structure Card where
  og_title : Option String := none
  og_description : Option String := none
  og_image_url : Option String := none
  public_slug : Option String := none
  public_token : Option String := none
  custom_title : Option String := none
  custom_bio : Option String := none
  custom_fields : Option CustomFields := none
deriving DecidableEq

/-- `template.color_scheme`. -/
structure ColorScheme where
  primary : Option String := none
  secondary : Option String := none
  background : Option String := none
  text : Option String := none
deriving DecidableEq

/-- One positioned layout element (`template.layout_config.elements[i]`).
Geometry is integer per the data model; all styling fields are optional. -/
structure Element where
  id : Option String := none
  type : Option String := none
  x : Int := 0
  y : Int := 0
  width : Int := 0
  height : Int := 0
  zIndex : Option Int := none
  isVisible : Option Bool := none
  borderRadius : Option String := none
  borderWidth : Option Int := none
  borderColor : Option String := none
  fontSize : Option String := none
  fontWeight : Option String := none
  textAlign : Option String := none
  textColor : Option String := none
  bgColor : Option String := none
  color : Option String := none
  opacity : Option Int := none
  iconColor : Option String := none
  icon : Option String := none
  iconSize : Option String := none
  iconOnly : Option Bool := none
  platform : Option String := none
  actionSource : Option String := none
  actionType : Option String := none
  customValue : Option String := none
  label : Option String := none
  imageUrl : Option String := none
deriving DecidableEq

/-- `template.layout_config`. -/
structure LayoutConfig where
  elements : Option (List Element) := none
deriving DecidableEq

/-- `template` sub-record. -/
structure Template where
  color_scheme : Option ColorScheme := none
  background_type : Option String := none
  background_value : Option String := none
  layout_config : Option LayoutConfig := none
deriving DecidableEq

/-- One fetched card record (`cardData`): the `card` object is accessed
without optional chaining by the source, the other four with `?.`. -/
structure CardData where
  card : Card := {}
  profile : Option Profile := none
  business : Option Business := none
  template : Option Template := none
  socialProfile : Option SocialProfile := none
deriving DecidableEq

/-- The `data` record `generateCardHTML` hands to `renderElement`. -/
structure RenderData where
  card : Card := {}
  profile : Option Profile := none
  business : Option Business := none
  socialProfile : Option SocialProfile := none
  colorScheme : ColorScheme := {}
  avatarUrl : Option String := none
  fullName : String := ""
  initials : String := ""
  title : String := ""
  bio : String := ""
  companyName : String := ""
deriving DecidableEq

/-! ## Source functions (`src/build.js`) -/

/-- `build.js` line 10: `process.env.APP_URL || 'https://app.supremetech.contact'`
(the environment override is deployment configuration; the default is the
value the rendering core sees). -/
def APP_URL : String := "https://app.supremetech.contact"

/-- `escapeHtml` (`build.js` 17–20): falsy input gives `""`; otherwise five
chained global single-character replacements, `&` first. -/
def escapeHtml (str : Option String) : String :=
  match str with
  | none => ""
  | some s =>
    if s = "" then ""
    else
      ⟨replaceSub ['\x27'] "&#039;".data
        (replaceSub ['"'] "&quot;".data
          (replaceSub ['>'] "&gt;".data
            (replaceSub ['<'] "&lt;".data
              (replaceSub ['&'] "&amp;".data s.data))))⟩

/-- `applyTemplate` (`build.js` 22–29): for each mapping entry in order,
globally replace `{{key}}` by its value, then trim.  Keys are the plain
identifiers the source uses (`full_name`, …), for which the `RegExp`
constructed from the key matches exactly the literal `{{key}}`. -/
def applyTemplate (template : Option String) (vars : List (String × String)) : String :=
  match template with
  | none => ""
  | some t =>
    if t = "" then ""
    else jsTrim ⟨vars.foldl
      (fun res kv => replaceSub ("\x7b\x7b" ++ kv.1 ++ "\x7d\x7d").data kv.2.data res) t.data⟩

/-- `getBorderRadius` (`build.js` 31–39). -/
def getBorderRadius (radius : Option String) : String :=
  match radius with
  | none => "8px"
  | some r =>
    if r = "" ∨ r = "md" then "8px"
    else if r = "none" then "0"
    else if r = "sm" then "4px"
    else if r = "lg" then "12px"
    else if r = "xl" then "16px"
    else if r = "full" then "9999px"
    else "8px"

/-- The `sizes` table inside `parseFontSize` (`build.js` 44). -/
def fontSizes : String → Option String
  | "xs" => some "12px"
  | "sm" => some "14px"
  | "md" => some "16px"
  | "lg" => some "18px"
  | "xl" => some "20px"
  | "2xl" => some "24px"
  | "3xl" => some "32px"
  | _ => none

/-- `parseFontSize` (`build.js` 41–46): falsy input gives `'16px'`; a token
ending in `px` passes through; then the table; then
`(parseInt(size) || 16) + 'px'` (so a parse of `0` or `NaN` falls back to
`16`). -/
def parseFontSize (size : Option String) : String :=
  match size with
  | none => "16px"
  | some s =>
    if s = "" then "16px"
    else if jsEndsWith s "px" then s
    else match fontSizes s with
      | some v => v
      | none =>
        (match jsParseInt s with
          | some n => if n = 0 then toString (16 : Int) else toString n
          | none => toString (16 : Int)) ++ "px"

/-- `getIconSize` (`build.js` 48–51). -/
def getIconSize (size : Option String) : Int :=
  match size with
  | some "sm" => 16
  | some "md" => 20
  | some "lg" => 24
  | some "xl" => 32
  | _ => 20

/-- The `link` icon (`ICONS.link`), the fallback glyph of `getIcon`. -/
def svgLink : String :=
  "<svg viewBox=\"0 0 24 24\" fill=\"none\" stroke=\"currentColor\" stroke-width=\"2\"><path d=\"M10 13a5 5 0 0 0 7.54.54l3-3a5 5 0 0 0-7.07-7.07l-1.72 1.71\"/><path d=\"M14 11a5 5 0 0 0-7.54-.54l-3 3a5 5 0 0 0 7.07 7.07l1.71-1.71\"/></svg>"

/-- The `ICONS` table (`build.js` 53–69): fixed vector icon markup keyed by
name. -/
def ICONS : String → Option String
  | "phone" => some "<svg viewBox=\"0 0 24 24\" fill=\"none\" stroke=\"currentColor\" stroke-width=\"2\"><path d=\"M22 16.92v3a2 2 0 0 1-2.18 2 19.79 19.79 0 0 1-8.63-3.07 19.5 19.5 0 0 1-6-6 19.79 19.79 0 0 1-3.07-8.67A2 2 0 0 1 4.11 2h3a2 2 0 0 1 2 1.72 12.84 12.84 0 0 0 .7 2.81 2 2 0 0 1-.45 2.11L8.09 9.91a16 16 0 0 0 6 6l1.27-1.27a2 2 0 0 1 2.11-.45 12.84 12.84 0 0 0 2.81.7A2 2 0 0 1 22 16.92z\"/></svg>"
  | "mail" => some "<svg viewBox=\"0 0 24 24\" fill=\"none\" stroke=\"currentColor\" stroke-width=\"2\"><path d=\"M4 4h16c1.1 0 2 .9 2 2v12c0 1.1-.9 2-2 2H4c-1.1 0-2-.9-2-2V6c0-1.1.9-2 2-2z\"/><polyline points=\"22,6 12,13 2,6\"/></svg>"
  | "globe" => some "<svg viewBox=\"0 0 24 24\" fill=\"none\" stroke=\"currentColor\" stroke-width=\"2\"><circle cx=\"12\" cy=\"12\" r=\"10\"/><line x1=\"2\" y1=\"12\" x2=\"22\" y2=\"12\"/><path d=\"M12 2a15.3 15.3 0 0 1 4 10 15.3 15.3 0 0 1-4 10 15.3 15.3 0 0 1-4-10 15.3 15.3 0 0 1 4-10z\"/></svg>"
  | "download" => some "<svg viewBox=\"0 0 24 24\" fill=\"none\" stroke=\"currentColor\" stroke-width=\"2\"><path d=\"M21 15v4a2 2 0 0 1-2 2H5a2 2 0 0 1-2-2v-4\"/><polyline points=\"7 10 12 15 17 10\"/><line x1=\"12\" y1=\"15\" x2=\"12\" y2=\"3\"/></svg>"
  | "message" => some "<svg viewBox=\"0 0 24 24\" fill=\"none\" stroke=\"currentColor\" stroke-width=\"2\"><path d=\"M21 15a2 2 0 0 1-2 2H7l-4 4V5a2 2 0 0 1 2-2h14a2 2 0 0 1 2 2z\"/></svg>"
  | "linkedin" => some "<svg viewBox=\"0 0 24 24\" fill=\"currentColor\"><path d=\"M16 8a6 6 0 0 1 6 6v7h-4v-7a2 2 0 0 0-2-2 2 2 0 0 0-2 2v7h-4v-7a6 6 0 0 1 6-6z\"/><rect x=\"2\" y=\"9\" width=\"4\" height=\"12\"/><circle cx=\"4\" cy=\"4\" r=\"2\"/></svg>"
  | "twitter" => some "<svg viewBox=\"0 0 24 24\" fill=\"currentColor\"><path d=\"M18.244 2.25h3.308l-7.227 8.26 8.502 11.24H16.17l-5.214-6.817L4.99 21.75H1.68l7.73-8.835L1.254 2.25H8.08l4.713 6.231zm-1.161 17.52h1.833L7.084 4.126H5.117z\"/></svg>"
  | "instagram" => some "<svg viewBox=\"0 0 24 24\" fill=\"none\" stroke=\"currentColor\" stroke-width=\"2\"><rect width=\"20\" height=\"20\" x=\"2\" y=\"2\" rx=\"5\" ry=\"5\"/><path d=\"M16 11.37A4 4 0 1 1 12.63 8 4 4 0 0 1 16 11.37z\"/><line x1=\"17.5\" x2=\"17.51\" y1=\"6.5\" y2=\"6.5\"/></svg>"
  | "facebook" => some "<svg viewBox=\"0 0 24 24\" fill=\"currentColor\"><path d=\"M18 2h-3a5 5 0 0 0-5 5v3H7v4h3v8h4v-8h3l1-4h-4V7a1 1 0 0 1 1-1h3z\"/></svg>"
  | "youtube" => some "<svg viewBox=\"0 0 24 24\" fill=\"currentColor\"><path d=\"M22.54 6.42a2.78 2.78 0 0 0-1.94-2C18.88 4 12 4 12 4s-6.88 0-8.6.46a2.78 2.78 0 0 0-1.94 2A29 29 0 0 0 1 11.75a29 29 0 0 0 .46 5.33A2.78 2.78 0 0 0 3.4 19c1.72.46 8.6.46 8.6.46s6.88 0 8.6-.46a2.78 2.78 0 0 0 1.94-2 29 29 0 0 0 .46-5.25 29 29 0 0 0-.46-5.33z\"/><polygon points=\"9.75 15.02 15.5 11.75 9.75 8.48 9.75 15.02\" fill=\"#fff\"/></svg>"
  | "github" => some "<svg viewBox=\"0 0 24 24\" fill=\"currentColor\"><path d=\"M9 19c-5 1.5-5-2.5-7-3m14 6v-3.87a3.37 3.37 0 0 0-.94-2.61c3.14-.35 6.44-1.54 6.44-7A5.44 5.44 0 0 0 20 4.77 5.07 5.07 0 0 0 19.91 1S18.73.65 16 2.48a13.38 13.38 0 0 0-7 0C6.27.65 5.09 1 5.09 1A5.07 5.07 0 0 0 5 4.77a5.44 5.44 0 0 0-1.5 3.78c0 5.42 3.3 6.61 6.44 7A3.37 3.37 0 0 0 9 18.13V22\"/></svg>"
  | "share" => some "<svg viewBox=\"0 0 24 24\" fill=\"none\" stroke=\"currentColor\" stroke-width=\"2\"><circle cx=\"18\" cy=\"5\" r=\"3\"/><circle cx=\"6\" cy=\"12\" r=\"3\"/><circle cx=\"18\" cy=\"19\" r=\"3\"/><line x1=\"8.59\" y1=\"13.51\" x2=\"15.42\" y2=\"17.49\"/><line x1=\"15.41\" y1=\"6.51\" x2=\"8.59\" y2=\"10.49\"/></svg>"
  | "calendar" => some "<svg viewBox=\"0 0 24 24\" fill=\"none\" stroke=\"currentColor\" stroke-width=\"2\"><rect x=\"3\" y=\"4\" width=\"18\" height=\"18\" rx=\"2\" ry=\"2\"/><line x1=\"16\" y1=\"2\" x2=\"16\" y2=\"6\"/><line x1=\"8\" y1=\"2\" x2=\"8\" y2=\"6\"/><line x1=\"3\" y1=\"10\" x2=\"21\" y2=\"10\"/></svg>"
  | "link" => some svgLink
  | "tiktok" => some "<svg viewBox=\"0 0 24 24\" fill=\"currentColor\"><path d=\"M19.59 6.69a4.83 4.83 0 0 1-3.77-4.25V2h-3.45v13.67a2.89 2.89 0 0 1-5.2 1.74 2.89 2.89 0 0 1 2.31-4.64 2.93 2.93 0 0 1 .88.13V9.4a6.84 6.84 0 0 0-1-.05A6.33 6.33 0 0 0 5 20.1a6.34 6.34 0 0 0 10.86-4.43v-7a8.16 8.16 0 0 0 4.77 1.52v-3.4a4.85 4.85 0 0 1-1-.1z\"/></svg>"
  | _ => none

/-- `getIcon` (`build.js` 71–74): look the glyph up (falling back to the
`link` glyph) and splice the size attributes into the first `<svg`. -/
def getIcon (iconName : String) (size : Int) : String :=
  ⟨replaceOnce "<svg".data
    ("<svg width=\"" ++ toString size ++ "\" height=\"" ++ toString size
      ++ "\" style=\"flex-shrink:0;\"").data
    (jsOrS (ICONS iconName) svgLink).data⟩

/-- The value-lookup phase of `getActionHref` (`build.js` 77–100): the
`switch` on `element.actionSource || ''`, whose `default` branch derives a
value from `actionType` instead. -/
def actionValue (element : Element) (profile : Option Profile)
    (business : Option Business) (socialProfile : Option SocialProfile) :
    Option String :=
  let source := jsOrS element.actionSource ""
  if source = "profile_phone" ∨ source = "personal_phone" ∨ source = "business_phone" then
    orOpt (business.bind Business.phone) (profile.bind Profile.phone)
  else if source = "profile_email" ∨ source = "personal_email"
      ∨ source = "user_login_email" ∨ source = "business_email" then
    orOpt (profile.bind Profile.work_email) (profile.bind Profile.email)
  else if source = "company_email" then business.bind Business.email
  else if source = "company_website" ∨ source = "business_website" then
    business.bind Business.website
  else if source = "social_linkedin" then socialProfile.bind SocialProfile.linkedin_url
  else if source = "social_twitter" then socialProfile.bind SocialProfile.twitter_url
  else if source = "social_facebook" then socialProfile.bind SocialProfile.facebook_url
  else if source = "social_instagram" then socialProfile.bind SocialProfile.instagram_url
  else if source = "social_youtube" then socialProfile.bind SocialProfile.youtube_url
  else if source = "social_github" then socialProfile.bind SocialProfile.github_url
  else if source = "custom" then element.customValue
  else
    if element.actionType = some "call" ∨ element.actionType = some "sms" then
      orOpt (business.bind Business.phone) (profile.bind Profile.phone)
    else if element.actionType = some "email" then profile.bind Profile.email
    else if element.actionType = some "website" then business.bind Business.website
    else element.customValue

/-- `getActionHref` (`build.js` 76–110): resolve the value, return the
inert `'#'` when it is falsy, otherwise wrap it in a scheme chosen by
`actionType`. -/
def getActionHref (element : Element) (profile : Option Profile)
    (business : Option Business) (socialProfile : Option SocialProfile) :
    String :=
  match actionValue element profile business socialProfile with
  | none => "#"
  | some v =>
    if v = "" then "#"
    else if element.actionType = some "call" then "tel:" ++ v
    else if element.actionType = some "sms" then "sms:" ++ v
    else if element.actionType = some "email" then "mailto:" ++ v
    else if jsStartsWith v "http" then v
    else "https://" ++ v

/-- The element's effective stacking key, `element.zIndex || 0`
(`build.js` 114 and 232). -/
def zKey (e : Element) : Int :=
  e.zIndex.getD 0

/-- `renderElement` (`build.js` 112–195): dispatch on `element.type`
(an absent type behaves like `''` and falls to the `default` arm). -/
def renderElement (element : Element) (data : RenderData) : String :=
  let baseStyle := "position:absolute;left:" ++ toString element.x ++ "px;top:"
    ++ toString element.y ++ "px;width:" ++ toString element.width ++ "px;height:"
    ++ toString element.height ++ "px;z-index:" ++ toString (zKey element) ++ ";"
  let t := element.type.getD ""
  if t = "avatar" then
    let radius := getBorderRadius (orOpt element.borderRadius (some "full"))
    let borderStyle :=
      match element.borderWidth with
      | some w =>
        if w > 0 then
          "border:" ++ toString w ++ "px solid " ++ jsOrS element.borderColor "transparent" ++ ";"
        else ""
      | none => ""
    if truthy data.avatarUrl then
      "<div style=\"" ++ baseStyle ++ borderStyle ++ "border-radius:" ++ radius
        ++ ";overflow:hidden;background:" ++ jsInterp data.colorScheme.primary
        ++ ";\"><img src=\"" ++ escapeHtml data.avatarUrl ++ "\" alt=\""
        ++ escapeHtml (some data.fullName)
        ++ "\" style=\"width:100%;height:100%;object-fit:cover;\"></div>"
    else
      "<div style=\"" ++ baseStyle ++ borderStyle ++ "border-radius:" ++ radius
        ++ ";overflow:hidden;background:" ++ jsInterp data.colorScheme.primary
        ++ ";display:flex;align-items:center;justify-content:center;\"><span style=\"color:#fff;font-size:"
        ++ divHundredStr ((if element.height = 0 then 80 else element.height) * 35)
        ++ "px;font-weight:bold;\">" ++ escapeHtml (some data.initials) ++ "</span></div>"
  else if t = "name" then
    let align := if element.textAlign = some "center" then "center"
      else if element.textAlign = some "right" then "flex-end" else "flex-start"
    "<div style=\"" ++ baseStyle ++ "color:" ++ jsInterp (orOpt element.textColor data.colorScheme.text)
      ++ ";font-weight:" ++ jsOrS element.fontWeight "bold"
      ++ ";display:flex;align-items:center;justify-content:" ++ align
      ++ ";overflow:hidden;\"><span style=\"font-size:" ++ jsOrStr (parseFontSize element.fontSize) "20px"
      ++ ";white-space:nowrap;\">" ++ escapeHtml (some data.fullName) ++ "</span></div>"
  else if t = "title" then
    let align := if element.textAlign = some "center" then "center"
      else if element.textAlign = some "right" then "flex-end" else "flex-start"
    "<div style=\"" ++ baseStyle ++ "color:" ++ jsInterp (orOpt element.textColor data.colorScheme.text)
      ++ ";font-weight:" ++ jsOrS element.fontWeight "normal"
      ++ ";opacity:0.85;display:flex;align-items:center;justify-content:" ++ align
      ++ ";overflow:hidden;\"><span style=\"font-size:" ++ jsOrStr (parseFontSize element.fontSize) "14px"
      ++ ";white-space:nowrap;\">" ++ escapeHtml (some data.title) ++ "</span></div>"
  else if t = "company" then
    let align := if element.textAlign = some "center" then "center"
      else if element.textAlign = some "right" then "flex-end" else "flex-start"
    "<div style=\"" ++ baseStyle ++ "color:" ++ jsInterp (orOpt element.textColor data.colorScheme.text)
      ++ ";font-weight:500;opacity:0.75;display:flex;align-items:center;justify-content:" ++ align
      ++ ";overflow:hidden;\"><span style=\"font-size:" ++ jsOrStr (parseFontSize element.fontSize) "14px"
      ++ ";white-space:nowrap;\">" ++ escapeHtml (some data.companyName) ++ "</span></div>"
  else if t = "bio" then
    "<div style=\"" ++ baseStyle ++ "color:" ++ jsInterp (orOpt element.textColor data.colorScheme.text)
      ++ ";font-size:" ++ jsOrStr (parseFontSize element.fontSize) "13px"
      ++ ";opacity:0.8;padding:8px;line-height:1.4;overflow:hidden;white-space:pre-wrap;text-align:"
      ++ jsOrS element.textAlign "center" ++ ";\">" ++ escapeHtml (some data.bio) ++ "</div>"
  else if t = "image" then
    let isCompanyLogo :=
      match element.id with
      | some i => containsStr "company_logo" i || containsStr "company_full_logo" i
      | none => false
    let imageUrl :=
      if isCompanyLogo then
        orOpt (data.business.bind Business.logo_full_url)
          (orOpt (data.business.bind Business.logo_icon_url)
            (orOpt (data.business.bind Business.logo_url) element.imageUrl))
      else element.imageUrl
    let imgOpacity := match element.opacity with | some o => divHundredStr o | none => "1"
    let radius := getBorderRadius element.borderRadius
    if !truthy imageUrl then ""
    else
      "<div style=\"" ++ baseStyle ++ "border-radius:" ++ radius
        ++ ";overflow:hidden;display:flex;align-items:center;justify-content:center;opacity:" ++ imgOpacity
        ++ ";\"><img src=\"" ++ escapeHtml imageUrl
        ++ "\" alt=\"\" style=\"width:100%;height:100%;object-fit:contain;border-radius:" ++ radius
        ++ ";\"></div>"
  else if t = "color_block" then
    let blockOpacity := match element.opacity with | some o => divHundredStr o | none => "1"
    "<div style=\"" ++ baseStyle ++ "background:" ++ jsInterp (orOpt element.bgColor data.colorScheme.secondary)
      ++ ";border-radius:" ++ getBorderRadius element.borderRadius
      ++ ";opacity:" ++ blockOpacity ++ ";\"></div>"
  else if t = "action_button" then
    let bgColor := jsInterp (orOpt element.bgColor data.colorScheme.secondary)
    let textColor := jsOrS element.textColor "#ffffff"
    let iconSize := getIconSize element.iconSize
    let radius := getBorderRadius element.borderRadius
    let href := getActionHref element data.profile data.business data.socialProfile
    let iconHtml :=
      match element.icon with
      | some i => if i = "" then "" else getIcon i iconSize
      | none => ""
    let target := if jsStartsWith href "http" then " target=\"_blank\" rel=\"noopener noreferrer\"" else ""
    let iconOnly := element.iconOnly.getD false
    "<a href=\"" ++ escapeHtml (some href) ++ "\"" ++ target ++ " style=\"" ++ baseStyle
      ++ "background:" ++ bgColor ++ ";color:" ++ textColor ++ ";border-radius:" ++ radius
      ++ ";display:flex;align-items:center;justify-content:center;gap:" ++ (if iconOnly then "0" else "8")
      ++ "px;text-decoration:none;font-size:" ++ jsOrStr (parseFontSize element.fontSize) "14px"
      ++ ";font-weight:500;\">" ++ iconHtml
      ++ (if !iconOnly ∧ truthy element.label then "<span>" ++ escapeHtml element.label ++ "</span>" else "")
      ++ "</a>"
  else if t = "button_primary" ∨ t = "button_secondary" then
    let isPrimary := t = "button_primary"
    let bgColor := jsInterp (orOpt element.bgColor
      (if isPrimary then data.colorScheme.primary else data.colorScheme.secondary))
    let textColor := jsOrS element.textColor "#ffffff"
    let radius := getBorderRadius element.borderRadius
    let href := getActionHref element data.profile data.business data.socialProfile
    let iconSize := getIconSize element.iconSize
    let iconHtml :=
      match element.icon with
      | some i => if i = "" then "" else getIcon i iconSize
      | none => ""
    let target := if jsStartsWith href "http" then " target=\"_blank\" rel=\"noopener noreferrer\"" else ""
    "<a href=\"" ++ escapeHtml (some href) ++ "\"" ++ target ++ " style=\"" ++ baseStyle
      ++ "background:" ++ bgColor ++ ";color:" ++ textColor ++ ";border-radius:" ++ radius
      ++ ";display:flex;align-items:center;justify-content:center;gap:8px;text-decoration:none;font-size:"
      ++ jsOrStr (parseFontSize element.fontSize) "14px" ++ ";font-weight:500;\">" ++ iconHtml
      ++ (if truthy element.label then "<span>" ++ escapeHtml element.label ++ "</span>" else "")
      ++ "</a>"
  else if t = "social_icon" then
    let iconSize := getIconSize element.iconSize
    let iconColor := jsInterp (orOpt element.iconColor data.colorScheme.primary)
    let bgColor := jsOrS element.bgColor "transparent"
    let radius := getBorderRadius (orOpt element.borderRadius (some "full"))
    let href := getActionHref element data.profile data.business data.socialProfile
    let platform := jsOrS element.platform "link"
    let iconHtml := getIcon platform iconSize
    let target := if jsStartsWith href "http" then " target=\"_blank\" rel=\"noopener noreferrer\"" else ""
    "<a href=\"" ++ escapeHtml (some href) ++ "\"" ++ target ++ " style=\"" ++ baseStyle
      ++ "background:" ++ bgColor ++ ";color:" ++ iconColor ++ ";border-radius:" ++ radius
      ++ ";display:flex;align-items:center;justify-content:center;text-decoration:none;\">"
      ++ iconHtml ++ "</a>"
  else if t = "divider" then
    let dividerColor := jsInterp (orOpt element.color data.colorScheme.text)
    let opacity := match element.opacity with | some o => divHundredStr o | none => "0.2"
    "<div style=\"" ++ baseStyle ++ "background:" ++ dividerColor ++ ";opacity:" ++ opacity ++ ";\"></div>"
  else if t = "text" then
    "<div style=\"" ++ baseStyle ++ "color:" ++ jsInterp (orOpt element.textColor data.colorScheme.text)
      ++ ";font-size:" ++ parseFontSize element.fontSize
      ++ ";text-align:" ++ jsOrS element.textAlign "left" ++ ";overflow:hidden;\">"
      ++ escapeHtml (some (jsOrS element.customValue "")) ++ "</div>"
  else ""

/-! ## The element pipeline of `generateCardHTML` (`build.js` 232) -/

/-- The stacking order, as a relation for the stable sort. -/
def zLe (a b : Element) : Prop :=
  zKey a ≤ zKey b

instance : DecidableRel zLe :=
  fun a b => inferInstanceAs (Decidable (zKey a ≤ zKey b))

instance : IsTotal Element zLe :=
  ⟨fun _ _ => Int.le_total _ _⟩

instance : IsTrans Element zLe :=
  ⟨fun _ _ _ => Int.le_trans⟩

/-- `elements.filter(el => el.isVisible !== false).sort((a, b) => (a.zIndex || 0) - (b.zIndex || 0))`:
JavaScript `Array#sort` is stable (ES2019) and the comparator is consistent,
so the result is the unique stable sort by `zKey`, realised here by a
stable insertion sort. -/
def visibleSorted (els : List Element) : List Element :=
  List.insertionSort zLe (els.filter fun el => el.isVisible != some false)

/-- JavaScript `Array#join('\n')`. -/
def joinNl : List String → String
  | [] => ""
  | [x] => x
  | x :: xs => x ++ "\n" ++ joinNl xs

/-- The whole pipeline of `build.js` 232: filter, stable sort, render, join. -/
def elementsHtml (els : List Element) (d : RenderData) : String :=
  joinNl ((visibleSorted els).map fun e => renderElement e d)

/-! ## Derived display values (`generateCardHTML`, `build.js` 197–230) -/

/-- The first character of a possibly-absent string as a string
(`s?.[0] || ''`). -/
def firstCharStr : Option String → String
  | some s => match s.data with
    | c :: _ => ⟨[c]⟩
    | [] => ""
  | none => ""

/-- `build.js` 199:
`[profile?.first_name, profile?.last_name].filter(Boolean).join(' ') || 'Contact'`. -/
def resolvedFullName (profile : Option Profile) : String :=
  jsOrStr
    (joinSp (([profile.bind Profile.first_name, profile.bind Profile.last_name].filter
      fun o => truthy o).map jsInterp))
    "Contact"

/-- `build.js` 226: first letters of the names, upper-cased, `'U'` if empty. -/
def initialsOf (profile : Option Profile) : String :=
  jsOrStr
    (upperStr (firstCharStr (profile.bind Profile.first_name)
      ++ firstCharStr (profile.bind Profile.last_name)))
    "U"

/-- `build.js` 200: `profile?.job_title || ''`. -/
def jobTitleOf (cd : CardData) : String :=
  jsOrS (cd.profile.bind Profile.job_title) ""

/-- `build.js` 201: `business?.name || ''`. -/
def companyNameOf (cd : CardData) : String :=
  jsOrS (cd.business.bind Business.name) ""

/-- `build.js` 203: the OG title template applied to the three variables. -/
def ogTitleOf (cd : CardData) : String :=
  applyTemplate (some (jsOrS cd.card.og_title "\x7b\x7bfull_name\x7d\x7d - Digital Card"))
    [("full_name", resolvedFullName cd.profile), ("job_title", jobTitleOf cd),
      ("company_name", companyNameOf cd)]

/-- `build.js` 204: the OG description template applied to the variables. -/
def ogDescriptionOf (cd : CardData) : String :=
  applyTemplate (some (jsOrS cd.card.og_description "\x7b\x7bjob_title\x7d\x7d at \x7b\x7bcompany_name\x7d\x7d"))
    [("full_name", resolvedFullName cd.profile), ("job_title", jobTitleOf cd),
      ("company_name", companyNameOf cd)]

/-- `build.js` 205:
`card.og_image_url || profile?.avatar_url || business?.logo_url || APP_URL + '/og-free-card.png'`. -/
def resolvedOgImage (cd : CardData) : String :=
  jsOrS
    (orOpt cd.card.og_image_url
      (orOpt (cd.profile.bind Profile.avatar_url) (cd.business.bind Business.logo_url)))
    (APP_URL ++ "/og-free-card.png")

/-- `build.js` 206–207: `slug = card.public_slug || card.public_token`;
`https://cards.supremetech.contact/${slug}`. -/
def canonicalUrl (cd : CardData) : String :=
  "https://cards.supremetech.contact/" ++ jsInterp (orOpt cd.card.public_slug cd.card.public_token)

/-- `build.js` 209: `template?.color_scheme || {built-in default}`. -/
def colorSchemeOf (cd : CardData) : ColorScheme :=
  match cd.template.bind Template.color_scheme with
  | some cs => cs
  | none =>
    { primary := some "#3B82F6", secondary := some "#1E40AF",
      background := some "#FFFFFF", text := some "#1F2937" }

/-- `build.js` 210: `colorScheme.primary || business?.primary_color || '#000000'`. -/
def themeColorOf (cd : CardData) : String :=
  jsOrS (orOpt (colorSchemeOf cd).primary (cd.business.bind Business.primary_color)) "#000000"

/-- `build.js` 212–219: the container background rule. -/
def backgroundStyleOf (cd : CardData) : String :=
  let cs := colorSchemeOf cd
  if cd.template.bind Template.background_type = some "image"
      ∧ truthy (cd.template.bind Template.background_value) then
    "background-image:url(" ++ jsInterp (cd.template.bind Template.background_value)
      ++ ");background-size:cover;background-position:center;"
  else if cd.template.bind Template.background_type = some "gradient" then
    "background:linear-gradient(135deg, " ++ jsInterp cs.primary ++ ", "
      ++ jsInterp cs.secondary ++ ");"
  else if truthy (cd.template.bind Template.background_value) then
    "background:" ++ jsInterp (cd.template.bind Template.background_value) ++ ";"
  else
    "background:" ++ jsInterp cs.background ++ ";"

/-- `build.js` 221–222: `template?.layout_config || {}` then
`layoutConfig.elements || []` (objects and arrays are truthy, so only an
absent field falls back). -/
def elementsOf (cd : CardData) : List Element :=
  ((cd.template.bind Template.layout_config).bind LayoutConfig.elements).getD []

/-- `build.js` 224–225: `card?.custom_fields || {}` then
`customFields?.profile_photo_url || profile?.avatar_url`. -/
def avatarUrlOf (cd : CardData) : Option String :=
  orOpt (cd.card.custom_fields.getD {}).profile_photo_url (cd.profile.bind Profile.avatar_url)

/-- `build.js` 227: `card?.custom_title || profile?.job_title || ''`. -/
def titleOf (cd : CardData) : String :=
  jsOrS (orOpt cd.card.custom_title (cd.profile.bind Profile.job_title)) ""

/-- `build.js` 228: `card?.custom_bio || ''`. -/
def bioOf (cd : CardData) : String :=
  jsOrS cd.card.custom_bio ""

/-- `build.js` 230: the `renderData` record handed to every element. -/
def renderDataOf (cd : CardData) : RenderData :=
  { card := cd.card, profile := cd.profile, business := cd.business,
    socialProfile := cd.socialProfile, colorScheme := colorSchemeOf cd,
    avatarUrl := avatarUrlOf cd, fullName := resolvedFullName cd.profile,
    initials := initialsOf cd.profile, title := titleOf cd, bio := bioOf cd,
    companyName := companyNameOf cd }

/-- `generateCardHTML` (`build.js` 197–278): the complete document string.
The template literal of the source is transcribed verbatim (literal braces
are written `\x7b`/`\x7d`, apostrophes `\x27`); interpolations that the
source escapes go through `escapeHtml`, the rest (canonical URL, theme
color, favicon URL, background style, canvas sizes) are spliced raw exactly
as in the source. -/
def generateCardHTML (cd : CardData) : String :=
  let ogTitle := ogTitleOf cd
  let ogDescription := ogDescriptionOf cd
  let ogImage := resolvedOgImage cd
  let canonical := canonicalUrl cd
  let elsHtml := elementsHtml (elementsOf cd) (renderDataOf cd)
  "<!DOCTYPE html>\n<html lang=\"en\">\n<head>\n  <meta charset=\"UTF-8\">\n  <meta name=\"viewport\" content=\"width=device-width, initial-scale=1.0, maximum-scale=1.0, user-scalable=no\">\n  <title>"
    ++ escapeHtml (some ogTitle)
    ++ "</title>\n  <meta name=\"title\" content=\"" ++ escapeHtml (some ogTitle)
    ++ "\">\n  <meta name=\"description\" content=\"" ++ escapeHtml (some ogDescription)
    ++ "\">\n  <meta property=\"og:type\" content=\"profile\">\n  <meta property=\"og:url\" content=\""
    ++ canonical
    ++ "\">\n  <meta property=\"og:title\" content=\"" ++ escapeHtml (some ogTitle)
    ++ "\">\n  <meta property=\"og:description\" content=\"" ++ escapeHtml (some ogDescription)
    ++ "\">\n  <meta property=\"og:image\" content=\"" ++ escapeHtml (some ogImage)
    ++ "\">\n  <meta property=\"og:image:width\" content=\"1200\">\n  <meta property=\"og:image:height\" content=\"630\">\n  <meta property=\"og:site_name\" content=\""
    ++ escapeHtml (some (jsOrStr (companyNameOf cd) "Digital Card"))
    ++ "\">\n  <meta name=\"twitter:card\" content=\"summary_large_image\">\n  <meta name=\"twitter:url\" content=\""
    ++ canonical
    ++ "\">\n  <meta name=\"twitter:title\" content=\"" ++ escapeHtml (some ogTitle)
    ++ "\">\n  <meta name=\"twitter:description\" content=\"" ++ escapeHtml (some ogDescription)
    ++ "\">\n  <meta name=\"twitter:image\" content=\"" ++ escapeHtml (some ogImage)
    ++ "\">\n  <meta name=\"theme-color\" content=\"" ++ themeColorOf cd
    ++ "\">\n  <link rel=\"canonical\" href=\"" ++ canonical
    ++ "\">\n  <link rel=\"icon\" type=\"image/png\" href=\""
    ++ jsOrS (cd.business.bind Business.logo_icon_url) (APP_URL ++ "/pwa-192x192.png")
    ++ "\">\n  <style>\n    *\x7bbox-sizing:border-box;margin:0;padding:0;\x7d\n    body\x7bfont-family:-apple-system,BlinkMacSystemFont,\x27Segoe UI\x27,Roboto,\x27Helvetica Neue\x27,Arial,sans-serif;min-height:100vh;display:flex;justify-content:center;align-items:flex-start;padding:0;background:#f0f0f0;\x7d\n    .card-container\x7bwidth:100%;max-width:390px;min-height:100vh;"
    ++ backgroundStyleOf cd
    ++ "position:relative;overflow:hidden;\x7d\n    .card-canvas\x7bposition:relative;width:100%;height:720px;\x7d\n    a\x7btransition:opacity 0.2s;\x7da:hover\x7bopacity:0.85;\x7da:active\x7bopacity:0.7;\x7d\n    @media(min-width:430px)\x7bbody\x7balign-items:center;padding:20px;\x7d.card-container\x7bmin-height:auto;height:720px;border-radius:24px;box-shadow:0 25px 50px -12px rgba(0,0,0,0.25);\x7d\x7d\n  </style>\n</head>\n<body>\n  <div class=\"card-container\">\n    <div class=\"card-canvas\">\n"
    ++ elsHtml
    ++ "\n    </div>\n  </div>\n</body>\n</html>"

/-! ## Spec-side definitions (stated from the specification's words, to be
compared with the source-derived definitions above) -/

/-- The per-character escape map that the specification's description of
`escapeHtml` amounts to: each of the five special characters becomes its
entity, every other character is kept. -/
def escChar (c : Char) : List Char :=
  if c = '&' then "&amp;".data
  else if c = '<' then "&lt;".data
  else if c = '>' then "&gt;".data
  else if c = '"' then "&quot;".data
  else if c = '\x27' then "&#039;".data
  else [c]

/-- The single-character replacement step produced by one global
`String#replace` pass. -/
def escStep (c : Char) (r : List Char) : Char → List Char :=
  fun x => if x = c then r else [x]

/-- Modelled from the spec (§9): the generic ordered-fallback selector —
the first truthy candidate, else the default. -/
def firstTruthy : List (Option String) → String → String
  | [], d => d
  | c :: rest, d =>
    match c with
    | some s => if s = "" then firstTruthy rest d else s
    | none => firstTruthy rest d

/-- The element kinds `renderElement` recognizes (`build.js` 116–193). -/
def knownTypes : List String :=
  ["avatar", "name", "title", "company", "bio", "image", "color_block",
    "action_button", "button_primary", "button_secondary", "social_icon",
    "divider", "text"]

/-- Test fixture: a minimal visible `text` element. -/
def elA : Element := { type := some "text", customValue := some "A" }

/-- Test fixture: an element of unrecognized kind. -/
def elUnknown : Element := { type := some "wibble" }

/-- Test fixture: a second minimal visible `text` element. -/
def elB : Element := { type := some "text", customValue := some "B" }

/-- Test fixture: an empty render-data record. -/
def rd0 : RenderData := {}

/-! ## Helper lemmas -/

lemma cmap_append (f : Char → List Char) (a b : List Char) :
    cmap f (a ++ b) = cmap f a ++ cmap f b := by
  induction a with
  | nil => simp [cmap]
  | cons c rest ih => simp [cmap, ih]

lemma cmap_cmap (f g : Char → List Char) (l : List Char) :
    cmap g (cmap f l) = cmap (fun a => cmap g (f a)) l := by
  induction l with
  | nil => simp [cmap]
  | cons c rest ih => simp [cmap, cmap_append, ih]

lemma cmap_congr {f g : Char → List Char} (h : ∀ a, f a = g a) (l : List Char) :
    cmap f l = cmap g l := by
  induction l with
  | nil => rfl
  | cons c rest ih => simp [cmap, h, ih]

lemma mem_cmap {c : Char} {f : Char → List Char} {l : List Char}
    (h : c ∈ cmap f l) : ∃ a, a ∈ l ∧ c ∈ f a := by
  induction l with
  | nil => simp [cmap] at h
  | cons x rest ih =>
    simp only [cmap, List.mem_append] at h
    rcases h with h | h
    · exact ⟨x, List.mem_cons_self x rest, h⟩
    · obtain ⟨a, ha, hc⟩ := ih h
      exact ⟨a, List.mem_cons_of_mem x ha, hc⟩

lemma replaceSubAux_single (c : Char) (r : List Char) :
    ∀ (fuel : Nat) (l : List Char), l.length ≤ fuel →
      replaceSubAux fuel [c] r l = cmap (escStep c r) l := by
  intro fuel
  induction fuel with
  | zero =>
    intro l h
    have : l = [] := List.eq_nil_of_length_eq_zero (Nat.le_zero.mp h)
    subst this
    rfl
  | succ n ih =>
    intro l h
    cases l with
    | nil => rfl
    | cons x rest =>
      have hpre : ([c].isPrefixOf (x :: rest)) = (x == c) := by
        simp [List.isPrefixOf, BEq.comm]
      by_cases hcx : x = c
      · have hcond : [c] ≠ [] ∧ [c].isPrefixOf (x :: rest) := by
          refine ⟨by simp, ?_⟩
          rw [hpre, hcx]
          exact beq_self_eq_true c
        simp only [replaceSubAux, if_pos hcond]
        have : rest.drop ([c].length - 1) = rest := by simp
        rw [this, ih rest (by simpa using Nat.le_of_succ_le_succ h)]
        simp [cmap, escStep, hcx]
      · have hcond : ¬([c] ≠ [] ∧ [c].isPrefixOf (x :: rest)) := by
          rintro ⟨-, hp⟩
          rw [hpre] at hp
          exact hcx (by simpa using hp)
        simp only [replaceSubAux, if_neg hcond]
        rw [ih rest (by simpa using Nat.le_of_succ_le_succ h)]
        simp [cmap, escStep, hcx]

lemma replaceSub_single (c : Char) (r l : List Char) :
    replaceSub [c] r l = cmap (escStep c r) l :=
  replaceSubAux_single c r l.length l (Nat.le_refl _)

lemma escChar_fused (a : Char) :
    cmap (escStep '\x27' "&#039;".data)
      (cmap (escStep '"' "&quot;".data)
        (cmap (escStep '>' "&gt;".data)
          (cmap (escStep '<' "&lt;".data) (escStep '&' "&amp;".data a))))
      = escChar a := by
  by_cases h1 : a = '&'
  · subst h1; decide
  by_cases h2 : a = '<'
  · subst h2; decide
  by_cases h3 : a = '>'
  · subst h3; decide
  by_cases h4 : a = '"'
  · subst h4; decide
  by_cases h5 : a = '\x27'
  · subst h5; decide
  simp [escStep, escChar, cmap, h1, h2, h3, h4, h5]

lemma escChar_chain (l : List Char) :
    cmap (escStep '\x27' "&#039;".data)
      (cmap (escStep '"' "&quot;".data)
        (cmap (escStep '>' "&gt;".data)
          (cmap (escStep '<' "&lt;".data)
            (cmap (escStep '&' "&amp;".data) l))))
      = cmap escChar l := by
  induction l with
  | nil => rfl
  | cons c rest ih =>
    simp only [cmap, cmap_append]
    rw [ih, escChar_fused]

lemma escapeHtml_eq (s : String) :
    escapeHtml (some s) = ⟨cmap escChar s.data⟩ := by
  by_cases hs : s = ""
  · subst hs; rfl
  · simp only [escapeHtml, if_neg hs]
    rw [replaceSub_single, replaceSub_single, replaceSub_single, replaceSub_single,
      replaceSub_single]
    exact congrArg String.mk (escChar_chain s.data)

lemma escChar_no_raw (a c : Char) (hc : c ∈ escChar a) :
    c ≠ '<' ∧ c ≠ '>' ∧ c ≠ '"' ∧ c ≠ '\x27' := by
  by_cases h1 : a = '&'
  · subst h1
    exact (by decide : ∀ x ∈ "&amp;".data, x ≠ '<' ∧ x ≠ '>' ∧ x ≠ '"' ∧ x ≠ '\x27') c hc
  by_cases h2 : a = '<'
  · subst h2
    exact (by decide : ∀ x ∈ "&lt;".data, x ≠ '<' ∧ x ≠ '>' ∧ x ≠ '"' ∧ x ≠ '\x27') c hc
  by_cases h3 : a = '>'
  · subst h3
    exact (by decide : ∀ x ∈ "&gt;".data, x ≠ '<' ∧ x ≠ '>' ∧ x ≠ '"' ∧ x ≠ '\x27') c hc
  by_cases h4 : a = '"'
  · subst h4
    exact (by decide : ∀ x ∈ "&quot;".data, x ≠ '<' ∧ x ≠ '>' ∧ x ≠ '"' ∧ x ≠ '\x27') c hc
  by_cases h5 : a = '\x27'
  · subst h5
    exact (by decide : ∀ x ∈ "&#039;".data, x ≠ '<' ∧ x ≠ '>' ∧ x ≠ '"' ∧ x ≠ '\x27') c hc
  have ha : escChar a = [a] := by simp [escChar, h1, h2, h3, h4, h5]
  rw [ha] at hc
  simp only [List.mem_singleton] at hc
  subst hc
  exact ⟨h2, h3, h4, h5⟩

lemma escapeHtml_no_raw (s : String) (c : Char)
    (h : c ∈ (escapeHtml (some s)).data) :
    c ≠ '<' ∧ c ≠ '>' ∧ c ≠ '"' ∧ c ≠ '\x27' := by
  rw [escapeHtml_eq] at h
  obtain ⟨a, _, hc⟩ := mem_cmap h
  exact escChar_no_raw a c hc

lemma isPrefixOf_self_append (p t : List Char) : p.isPrefixOf (p ++ t) = true := by
  induction p with
  | nil => simp [List.isPrefixOf]
  | cons a as ih => simp [List.isPrefixOf, ih]

lemma containsSub_self_append (p t : List Char) : containsSub p (p ++ t) = true := by
  cases p with
  | nil => cases t <;> simp [containsSub, List.isPrefixOf]
  | cons c p' =>
    have h := isPrefixOf_self_append (c :: p') t
    rw [List.cons_append] at h ⊢
    simp [containsSub, h]

lemma containsSub_append_right (p : List Char) {s : List Char} (a : List Char)
    (h : containsSub p s = true) : containsSub p (a ++ s) = true := by
  induction a with
  | nil => simpa using h
  | cons c as ih => simp [containsSub, ih]

lemma containsStr_self_append (p t : String) : containsStr p (p ++ t) = true := by
  simpa [containsStr, String.data_append] using containsSub_self_append p.data t.data

lemma containsStr_right {p s : String} {a : String}
    (h : containsStr p s = true) : containsStr p (a ++ s) = true := by
  simpa [containsStr, String.data_append] using containsSub_append_right p.data a.data h

set_option maxRecDepth 20000 in
lemma canonical_in_doc (cd : CardData) :
    containsStr (canonicalUrl cd) (generateCardHTML cd) = true := by
  simp only [generateCardHTML, String.append_assoc]
  repeat
    first
    | exact containsStr_self_append _ _
    | apply containsStr_right

set_option maxRecDepth 20000 in
lemma ogImage_escaped_in_doc (cd : CardData) :
    containsStr (escapeHtml (some (resolvedOgImage cd))) (generateCardHTML cd) = true := by
  simp only [generateCardHTML, String.append_assoc]
  repeat
    first
    | exact containsStr_self_append _ _
    | apply containsStr_right

lemma filter_orderedInsert (v : Int) (e : Element) (l : List Element) :
    (List.orderedInsert zLe e l).filter (fun x => zKey x == v)
      = if zKey e == v then e :: l.filter (fun x => zKey x == v)
        else l.filter (fun x => zKey x == v) := by
  induction l with
  | nil =>
    cases h : (zKey e == v) <;> simp [List.orderedInsert, List.filter_cons, h]
  | cons x xs ih =>
    simp only [List.orderedInsert]
    by_cases hle : zLe e x
    · rw [if_pos hle]
      cases h : (zKey e == v) <;> cases hx : (zKey x == v) <;>
        simp [List.filter_cons, h, hx]
    · rw [if_neg hle]
      have hlt : zKey x < zKey e := lt_of_not_le hle
      by_cases hev : (zKey e == v) = true
      · have hxv : (zKey x == v) = false := by
          have hev' : zKey e = v := by simpa using hev
          simp only [beq_eq_false_iff_ne, ne_eq]
          omega
        simp [List.filter_cons, hxv, ih, hev]
      · have hev' : (zKey e == v) = false := by
          simpa using hev
        cases hx : (zKey x == v) <;> simp [List.filter_cons, hx, ih, hev']

lemma filter_insertionSort (v : Int) (l : List Element) :
    (List.insertionSort zLe l).filter (fun x => zKey x == v)
      = l.filter (fun x => zKey x == v) := by
  induction l with
  | nil => rfl
  | cons x xs ih =>
    simp only [List.insertionSort]
    rw [filter_orderedInsert]
    cases hx : (zKey x == v) <;> simp [List.filter_cons, hx, ih]

lemma mem_visibleSorted (els : List Element) (e : Element) :
    e ∈ visibleSorted els ↔ e ∈ els ∧ e.isVisible ≠ some false := by
  unfold visibleSorted
  rw [(List.perm_insertionSort zLe _).mem_iff, List.mem_filter]
  simp [bne_iff_ne]

lemma replaceSubAux_fuel :
    ∀ (f1 f2 : Nat) (p r s : List Char), s.length ≤ f1 → s.length ≤ f2 →
      replaceSubAux f1 p r s = replaceSubAux f2 p r s := by
  intro f1
  induction f1 with
  | zero =>
    intro f2 p r s h1 _
    have : s = [] := List.eq_nil_of_length_eq_zero (Nat.le_zero.mp h1)
    subst this
    cases f2 <;> rfl
  | succ n ih =>
    intro f2 p r s h1 h2
    cases s with
    | nil => cases f2 <;> rfl
    | cons c rest =>
      cases f2 with
      | zero => simp [List.length_cons] at h2
      | succ m =>
        simp only [List.length_cons] at h1 h2
        simp only [replaceSubAux]
        by_cases hc : p ≠ [] ∧ p.isPrefixOf (c :: rest)
        · rw [if_pos hc, if_pos hc]
          congr 1
          have hd : (rest.drop (p.length - 1)).length ≤ rest.length := by
            simp [List.length_drop]
          exact ih m p r _ (by omega) (by omega)
        · rw [if_neg hc, if_neg hc]
          congr 1
          exact ih m p r rest (by omega) (by omega)

lemma replaceSub_head (p r t : List Char) (hp : p ≠ []) :
    replaceSub p r (p ++ t) = r ++ replaceSub p r t := by
  obtain ⟨c, p', rfl⟩ := List.exists_cons_of_ne_nil hp
  unfold replaceSub
  have hlen : ((c :: p') ++ t).length = (p'.length + t.length) + 1 := by
    simp [List.length_append, List.length_cons]
  rw [hlen, List.cons_append]
  simp only [replaceSubAux]
  have hcond : (c :: p') ≠ [] ∧ (c :: p').isPrefixOf (c :: (p' ++ t)) := by
    refine ⟨by simp, ?_⟩
    have h := isPrefixOf_self_append (c :: p') t
    rw [List.cons_append] at h
    exact h
  rw [if_pos hcond]
  congr 1
  have hdrop : (p' ++ t).drop ((c :: p').length - 1) = t := by
    simp only [List.length_cons, Nat.add_sub_cancel]
    exact List.drop_left p' t
  rw [hdrop]
  exact replaceSubAux_fuel _ _ _ _ _ (by omega) (Nat.le_refl _)

lemma jsOrS_orOpt (a b : Option String) (d : String) :
    jsOrS (orOpt a b) d = if truthy a then jsInterp a else jsOrS b d := by
  cases a with
  | none => simp [orOpt, truthy]
  | some s =>
    by_cases h : s = ""
    · simp [orOpt, truthy, h]
    · simp [orOpt, truthy, jsOrS, jsInterp, h]

lemma jsOrS_ite (a : Option String) (d : String) :
    jsOrS a d = if truthy a then jsInterp a else d := by
  cases a with
  | none => simp [jsOrS, truthy]
  | some s =>
    by_cases h : s = ""
    · simp [jsOrS, truthy, h]
    · simp [jsOrS, truthy, jsInterp, h]

lemma firstTruthy_cons (a : Option String) (rest : List (Option String)) (d : String) :
    firstTruthy (a :: rest) d = if truthy a then jsInterp a else firstTruthy rest d := by
  cases a with
  | none => simp [firstTruthy, truthy]
  | some s =>
    by_cases h : s = "" <;> simp [firstTruthy, truthy, jsInterp, h]

lemma resolvedOgImage_eq_firstTruthy (cd : CardData) :
    resolvedOgImage cd
      = firstTruthy
          [cd.card.og_image_url, cd.profile.bind Profile.avatar_url,
            cd.business.bind Business.logo_url]
          (APP_URL ++ "/og-free-card.png") := by
  unfold resolvedOgImage
  rw [jsOrS_orOpt, jsOrS_orOpt, jsOrS_ite,
    firstTruthy_cons, firstTruthy_cons, firstTruthy_cons]
  rfl

/-! ## Claims -/

/-- C1 counterexample: on the claim's own example, `applyTemplate` leaves the
placeholder of the unmapped name `b` verbatim (the loop only visits keys
present in the mapping), so the result is `"X and {{b}}"`, not the claimed
`"X and"`. -/
theorem C1_applyTemplate_cex :
    applyTemplate (some "\x7b\x7ba\x7d\x7d and \x7b\x7bb\x7d\x7d") [("a", "X")]
        = "X and \x7b\x7bb\x7d\x7d"
      ∧ applyTemplate (some "\x7b\x7ba\x7d\x7d and \x7b\x7bb\x7d\x7d") [("a", "X")]
        ≠ "X and" := by
  constructor <;> decide

/-- C1 (amended): `applyTemplate` replaces, for each name present in the
mapping, every occurrence of its placeholder globally (an empty value erases
the placeholder); a placeholder whose name is absent from the mapping is
left verbatim; the result is trimmed.  With an empty mapping the result is
exactly the trimmed template, and the replacement engine keeps replacing
behind a match (globality). -/
theorem C1_applyTemplate_amended :
    (∀ t : String, applyTemplate (some t) [] = jsTrim t)
      ∧ (∀ (p r t : List Char), p ≠ [] →
        replaceSub p r (p ++ t) = r ++ replaceSub p r t)
      ∧ applyTemplate (some " \x7b\x7ba\x7d\x7d more \x7b\x7ba\x7d\x7d ") [("a", "X")]
        = "X more X"
      ∧ applyTemplate (some "\x7b\x7ba\x7d\x7d") [("a", "")] = ""
      ∧ applyTemplate (some "\x7b\x7ba\x7d\x7d and \x7b\x7bb\x7d\x7d") [("a", "X")]
        = "X and \x7b\x7bb\x7d\x7d" := by
  refine ⟨?_, replaceSub_head, by decide, by decide, by decide⟩
  intro t
  by_cases h : t = ""
  · subst h; rfl
  · simp [applyTemplate, h, jsTrim]

/-- C1 witness: the globality lemma applied at a concrete input. -/
theorem C1_applyTemplate_amended_witness :
    replaceSub ['a'] ['b'] (['a'] ++ ['c']) = ['b'] ++ replaceSub ['a'] ['b'] ['c'] :=
  C1_applyTemplate_amended.2.1 ['a'] ['b'] ['c'] (by decide)

/-- C2 counterexample: the code ignores `card.custom_fields.profile_photo_url`
for the OG image (it is only used for the avatar), and with no image source
at all it emits the fixed `og-free-card.png` default, which is not an
initials-placeholder URL (it does not mention the initials `JD`). -/
theorem C2_ogImage_cex :
    resolvedOgImage
        { card := { custom_fields := some { profile_photo_url := some "https://p.example/pp.png" } },
          profile := some { avatar_url := some "https://p.example/av.png" } }
        = "https://p.example/av.png"
      ∧ "https://p.example/av.png" ≠ "https://p.example/pp.png"
      ∧ resolvedOgImage { profile := some { first_name := some "John", last_name := some "Doe" } }
        = "https://app.supremetech.contact/og-free-card.png"
      ∧ containsStr "JD"
          (resolvedOgImage { profile := some { first_name := some "John", last_name := some "Doe" } })
        = false := by
  refine ⟨by decide, by decide, by decide, by decide⟩

/-- C2 (amended): the OG/share image emitted in the document metadata is the
first non-empty of `card.og_image_url`, `profile.avatar_url`,
`business.logo_url`, and otherwise the fixed default
`APP_URL ++ "/og-free-card.png"`; with only `profile.avatar_url` set the
output image equals that avatar URL, and the (escaped) resolved image always
appears in the emitted document. -/
theorem C2_ogImage_amended :
    (∀ cd : CardData,
        resolvedOgImage cd
          = firstTruthy
              [cd.card.og_image_url, cd.profile.bind Profile.avatar_url,
                cd.business.bind Business.logo_url]
              (APP_URL ++ "/og-free-card.png"))
      ∧ resolvedOgImage { profile := some { avatar_url := some "https://p.example/av.png" } }
        = "https://p.example/av.png"
      ∧ (∀ cd : CardData,
        containsStr (escapeHtml (some (resolvedOgImage cd))) (generateCardHTML cd) = true) :=
  ⟨resolvedOgImage_eq_firstTruthy, by decide, ogImage_escaped_in_doc⟩

/-- C3: `getActionHref` returns the inert `"#"` whenever no value resolves
(absent or empty), and otherwise wraps the resolved value by `actionType`:
`call → tel:`, `sms → sms:`, `email → mailto:`, anything else keeps a value
that already starts with `http` (the code's protocol-prefix test) and
prefixes `https://` otherwise; the claim's four concrete examples hold. -/
theorem C3_getActionHref_spec :
    (∀ (e : Element) (p : Option Profile) (b : Option Business) (s : Option SocialProfile),
        (actionValue e p b s = none ∨ actionValue e p b s = some "") →
          getActionHref e p b s = "#")
      ∧ (∀ (e : Element) (p : Option Profile) (b : Option Business) (s : Option SocialProfile)
          (v : String), actionValue e p b s = some v → v ≠ "" →
          getActionHref e p b s
            = if e.actionType = some "call" then "tel:" ++ v
              else if e.actionType = some "sms" then "sms:" ++ v
              else if e.actionType = some "email" then "mailto:" ++ v
              else if jsStartsWith v "http" then v
              else "https://" ++ v)
      ∧ getActionHref { actionType := some "call" } none (some { phone := some "555-1234" }) none
        = "tel:555-1234"
      ∧ getActionHref { actionType := some "email" } none none none = "#"
      ∧ getActionHref { actionType := some "website" } none (some { website := some "example.com" }) none
        = "https://example.com"
      ∧ getActionHref
          { actionType := some "website", actionSource := some "custom",
            customValue := some "https://x.com" } none none none
        = "https://x.com" := by
  refine ⟨?_, ?_, by decide, by decide, by decide, by decide⟩
  · intro e p b s h
    rcases h with h | h <;> simp [getActionHref, h]
  · intro e p b s v hv hne
    simp [getActionHref, hv, hne]

/-- C3 witness: the scheme-wrapping clause applied at a concrete input. -/
theorem C3_getActionHref_spec_witness :
    getActionHref
        { actionType := some "website", actionSource := some "custom",
          customValue := some "foo.com" } none none none
      = "https://foo.com" := by
  have h := C3_getActionHref_spec.2.1
    { actionType := some "website", actionSource := some "custom",
      customValue := some "foo.com" } none none none "foo.com" (by decide) (by decide)
  exact h.trans (by decide)

/-- C4 counterexample: with neither name present the resolved full name is
the literal `'Contact'` (`... || 'Contact'` in the source), not the empty
string the claim states. -/
theorem C4_fullName_cex :
    resolvedFullName none = "Contact" ∧ resolvedFullName none ≠ "" := by
  constructor <;> decide

/-- C4 (amended): the resolved full name is `first_name` and `last_name`
with empty/absent parts dropped, joined by a single space, and the literal
`'Contact'` when neither is present; it is the name `generateCardHTML`
hands to the renderer. -/
theorem C4_fullName_amended :
    (∀ f l : String, f ≠ "" → l ≠ "" →
        resolvedFullName (some { first_name := some f, last_name := some l }) = f ++ " " ++ l)
      ∧ (∀ f : String, f ≠ "" → resolvedFullName (some { first_name := some f }) = f)
      ∧ (∀ l : String, l ≠ "" → resolvedFullName (some { last_name := some l }) = l)
      ∧ resolvedFullName none = "Contact"
      ∧ resolvedFullName (some {}) = "Contact"
      ∧ resolvedFullName (some { first_name := some "", last_name := some "" }) = "Contact"
      ∧ (∀ cd : CardData, (renderDataOf cd).fullName = resolvedFullName cd.profile) := by
  refine ⟨?_, ?_, ?_, by decide, by decide, by decide, fun cd => rfl⟩
  · intro f l hf hl
    have hne : f ++ " " ++ l ≠ "" := by
      intro h0
      have hlen := congrArg String.length h0
      rw [String.length_append, String.length_append] at hlen
      have hsp : (" " : String).length = 1 := rfl
      have hnil : ("" : String).length = 0 := rfl
      rw [hsp, hnil] at hlen
      omega
    simp [resolvedFullName, truthy, hf, hl, joinSp, jsOrStr, jsInterp, hne]
  · intro f hf
    simp [resolvedFullName, truthy, hf, joinSp, jsOrStr, jsInterp]
  · intro l hl
    simp [resolvedFullName, truthy, hl, joinSp, jsOrStr, jsInterp]

/-- C4 witness: the two-name clause applied at a concrete input. -/
theorem C4_fullName_amended_witness :
    resolvedFullName (some { first_name := some "John", last_name := some "Doe" }) = "John Doe" := by
  have h := C4_fullName_amended.1 "John" "Doe" (by decide) (by decide)
  exact h.trans (by decide)

/-- C5 counterexample: with no slug the token is spliced into the URL as the
same path segment (not a query parameter — the URL contains no `?`), and no
`embed` flag is ever appended. -/
theorem C5_canonicalUrl_cex :
    canonicalUrl { card := { public_token := some "tok123" } }
        = "https://cards.supremetech.contact/tok123"
      ∧ containsStr "embed" (canonicalUrl { card := { public_token := some "tok123" } }) = false
      ∧ containsStr "?" (canonicalUrl { card := { public_token := some "tok123" } }) = false := by
  refine ⟨by decide, by decide, by decide⟩

/-- C5 (amended): the canonical/live URL is the fixed base
`https://cards.supremetech.contact/` followed by the card's public slug when
present and non-empty, else by the public token (as a path segment); the URL
is spliced into the emitted document. -/
theorem C5_canonicalUrl_amended :
    (∀ (cd : CardData) (s : String), cd.card.public_slug = some s → s ≠ "" →
        canonicalUrl cd = "https://cards.supremetech.contact/" ++ s)
      ∧ (∀ (cd : CardData) (t : String),
        (cd.card.public_slug = none ∨ cd.card.public_slug = some "") →
        cd.card.public_token = some t →
        canonicalUrl cd = "https://cards.supremetech.contact/" ++ t)
      ∧ (∀ cd : CardData, containsStr (canonicalUrl cd) (generateCardHTML cd) = true) := by
  refine ⟨?_, ?_, canonical_in_doc⟩
  · intro cd s hs hne
    unfold canonicalUrl orOpt
    rw [hs]
    simp [truthy, hne, jsInterp]
  · intro cd t hs ht
    unfold canonicalUrl orOpt
    rcases hs with h | h <;> rw [h, ht] <;> simp [truthy, jsInterp]

/-- C5 witness: the slug clause applied at a concrete input. -/
theorem C5_canonicalUrl_amended_witness :
    canonicalUrl { card := { public_slug := some "abc" } }
      = "https://cards.supremetech.contact/" ++ "abc" :=
  C5_canonicalUrl_amended.1 { card := { public_slug := some "abc" } } "abc" rfl (by decide)

/-- C6: the element pipeline renders fragments in non-decreasing `zIndex`
order (absent `zIndex` counts as `0`), ties keep their input order (the
filtered sub-list with any fixed key is unchanged — stable sort), and the
emitted fragments are exactly the renderings of the sorted visible
elements, joined by newlines. -/
theorem C6_zIndex_order (els : List Element) (d : RenderData) :
    List.Sorted zLe (visibleSorted els)
      ∧ (∀ v : Int,
        (visibleSorted els).filter (fun e => zKey e == v)
          = (els.filter fun el => el.isVisible != some false).filter (fun e => zKey e == v))
      ∧ elementsHtml els d = joinNl ((visibleSorted els).map fun e => renderElement e d) :=
  ⟨List.sorted_insertionSort zLe _, fun v => filter_insertionSort v _, rfl⟩

/-- C7: an element with `isVisible = false` never reaches the renderer (it
is not in the filtered, sorted list the pipeline maps over), while every
other element of the input does. -/
theorem C7_invisible_filtered (els : List Element) (e : Element) :
    (e.isVisible = some false → e ∉ visibleSorted els)
      ∧ (e ∈ els → e.isVisible ≠ some false → e ∈ visibleSorted els) := by
  constructor
  · intro hv hmem
    exact ((mem_visibleSorted els e).mp hmem).2 hv
  · intro hmem hv
    exact (mem_visibleSorted els e).mpr ⟨hmem, hv⟩

/-- C7 witness: both clauses applied at concrete inputs. -/
theorem C7_invisible_filtered_witness :
    ({ type := some "text", isVisible := some false } : Element)
        ∉ visibleSorted [{ type := some "text", isVisible := some false }, elA]
      ∧ elA ∈ visibleSorted [{ type := some "text", isVisible := some false }, elA] :=
  ⟨(C7_invisible_filtered _ _).1 rfl,
    (C7_invisible_filtered _ _).2 (by decide) (by decide)⟩

/-- C8 counterexample: the token `"0"` is numeric-looking, but
`parseInt('0') || 16` discards the parsed `0`, so the code yields `"16px"`
where the claim predicts `"0px"`. -/
theorem C8_parseFontSize_cex :
    parseFontSize (some "0") = "16px" ∧ "16px" ≠ "0px" := by
  constructor <;> decide

/-- C8 (amended): the table maps `xs/sm/md/lg/xl/2xl/3xl` to
`12/14/16/18/20/24/32` px; a non-empty token ending in `px` passes through
unchanged; any other unmapped token is parsed with `parseInt` and yields
that integer with `px` appended when the parse succeeds with a non-zero
value, while a parse of `0` or a failed parse (and an absent or empty
token) yields the default `16px`. -/
theorem C8_parseFontSize_amended :
    parseFontSize none = "16px"
      ∧ parseFontSize (some "") = "16px"
      ∧ parseFontSize (some "xs") = "12px"
      ∧ parseFontSize (some "sm") = "14px"
      ∧ parseFontSize (some "md") = "16px"
      ∧ parseFontSize (some "lg") = "18px"
      ∧ parseFontSize (some "xl") = "20px"
      ∧ parseFontSize (some "2xl") = "24px"
      ∧ parseFontSize (some "3xl") = "32px"
      ∧ (∀ s : String, s ≠ "" → jsEndsWith s "px" = true → parseFontSize (some s) = s)
      ∧ (∀ s : String, s ≠ "" → jsEndsWith s "px" = false → fontSizes s = none →
        parseFontSize (some s)
          = (match jsParseInt s with
              | some n => if n = 0 then toString (16 : Int) else toString n
              | none => toString (16 : Int)) ++ "px")
      ∧ parseFontSize (some "18") = "18px"
      ∧ parseFontSize (some "wibble") = "16px" := by
  refine ⟨by decide, by decide, by decide, by decide, by decide, by decide, by decide,
    by decide, by decide, ?_, ?_, by decide, by decide⟩
  · intro s hne hpx
    simp [parseFontSize, hne, hpx]
  · intro s hne hpx htable
    simp [parseFontSize, hne, hpx, htable]

/-- C8 witness: the pixel pass-through clause applied at a concrete input. -/
theorem C8_parseFontSize_amended_witness :
    parseFontSize (some "7px") = "7px" :=
  C8_parseFontSize_amended.2.2.2.2.2.2.2.2.2.1 "7px" (by decide) (by decide)

set_option maxRecDepth 80000 in
/-- C9: `renderElement` returns the empty string for every element whose
type is not one of the thirteen recognized kinds, and the pipeline renders
siblings of an unknown-kind element unaffected: in a concrete document the
unknown element contributes only an empty fragment between its rendered
siblings. -/
theorem C9_unknown_type :
    (∀ (e : Element) (d : RenderData),
        (∀ t, e.type = some t → t ∉ knownTypes) → renderElement e d = "")
      ∧ elementsHtml [elA, elUnknown, elB] rd0
        = renderElement elA rd0 ++ "\n\n" ++ renderElement elB rd0 := by
  constructor
  · intro e d h
    have ht : e.type.getD "" ∉ knownTypes := by
      cases he : e.type with
      | none => decide
      | some t => simpa using h t he
    simp only [knownTypes, List.mem_cons, List.not_mem_nil, or_false, not_or] at ht
    obtain ⟨n1, n2, n3, n4, n5, n6, n7, n8, n9, n10, n11, n12, n13⟩ := ht
    simp [renderElement, n1, n2, n3, n4, n5, n6, n7, n8, n9, n10, n11, n12, n13]
  · decide

/-- C9 witness: the unknown-kind clause applied at a concrete element. -/
theorem C9_unknown_type_witness :
    renderElement elUnknown rd0 = "" :=
  C9_unknown_type.1 elUnknown rd0 (by
    intro t h
    simp only [elUnknown, Option.some.injEq] at h
    subst h
    decide)

/-- C10 counterexample: a slug containing a double quote reaches the
document verbatim through the canonical URL (og:url, twitter:url and the
canonical link), even though `escapeHtml` would have altered it — so not
every data-derived link target in the metadata passes through
`escapeHtml`. -/
theorem C10_escapeHtml_coverage_cex :
    containsStr "https://cards.supremetech.contact/a\"b"
        (generateCardHTML { card := { public_slug := some "a\"b" } }) = true
      ∧ escapeHtml (some "https://cards.supremetech.contact/a\"b")
        ≠ "https://cards.supremetech.contact/a\"b" := by
  constructor
  · have h := canonical_in_doc { card := { public_slug := some "a\"b" } }
    have e : canonicalUrl { card := { public_slug := some "a\"b" } }
        = "https://cards.supremetech.contact/a\"b" := by decide
    rw [e] at h
    exact h
  · decide

/-- C10 (amended): `escapeHtml` returns `""` on absent or empty input and
otherwise rewrites the input character-wise, replacing `&`, `<`, `>`, `"`
and `'` by their entities (`&` first), so its output contains no raw `<`,
`>`, `"` or `'`; the OG image is interpolated into the document through
`escapeHtml`, while the canonical URL is spliced in raw. -/
theorem C10_escapeHtml_spec :
    escapeHtml none = ""
      ∧ escapeHtml (some "") = ""
      ∧ (∀ s : String, escapeHtml (some s) = ⟨cmap escChar s.data⟩)
      ∧ (∀ (s : String) (c : Char), c ∈ (escapeHtml (some s)).data →
        c ≠ '<' ∧ c ≠ '>' ∧ c ≠ '"' ∧ c ≠ '\x27')
      ∧ (∀ cd : CardData,
        containsStr (escapeHtml (some (resolvedOgImage cd))) (generateCardHTML cd) = true)
      ∧ (∀ cd : CardData, containsStr (canonicalUrl cd) (generateCardHTML cd) = true) :=
  ⟨rfl, rfl, escapeHtml_eq, escapeHtml_no_raw, ogImage_escaped_in_doc, canonical_in_doc⟩

/-- C10 witness: the no-raw-specials clause applied at a concrete input. -/
theorem C10_escapeHtml_spec_witness :
    'a' ≠ '<' ∧ 'a' ≠ '>' ∧ 'a' ≠ '"' ∧ 'a' ≠ '\x27' :=
  C10_escapeHtml_spec.2.2.2.1 "ab" 'a' (by decide)

end Cards
